import Mathlib

/-!
Shallow embedding of the data pipeline of `src/app.py` (a pandas/streamlit
delivery-analytics dashboard).  The embedding covers:

* the cleaning / feature-derivation block (lines 89-110): categorical
  `fillna("Unknown")`, `Agent_Rating` mean-fill, `Agent_Age` median-fill,
  `avg_delivery_time` / `std_delivery_time`, the `Is_Late` flag, the
  `age_group` bucketing;
* the sidebar filter chain (lines 126-131);
* the KPI scalars (lines 100-103, KPI cards 136-157);
* the group-by aggregations feeding `fig2` (lines 174-178) and `late_df`
  (lines 197-198).

Numeric cells are modelled as `Option ℚ` (`none` is pandas `NaN`), string
cells as `Option String`.  Pandas semantics used throughout and noted at
each definition: `mean`/`median`/`std` skip nulls (`skipna=True`), `std`
uses the sample convention (`ddof=1`, `NaN` when fewer than two values),
and any comparison against `NaN` yields `False`.
-/

namespace DeliveryDashboard

/-- Raw input row: the columns of `cleaned_delivery_data.csv` the pipeline
touches.  Every field is nullable, matching the source data model. -/
structure RawRow where
  Weather : Option String
  Traffic : Option String
  Vehicle : Option String
  Area : Option String
  Category : Option String
  Agent_Rating : Option ℚ
  Agent_Age : Option ℚ
  Delivery_Time : Option ℚ
deriving DecidableEq

/-- Raw table: rows plus presence flags for the five categorical columns
(the cleaning loop at lines 90-92 tests `col in df.columns`). -/
structure RawTable where
  hasWeather : Bool
  hasTraffic : Bool
  hasVehicle : Bool
  hasArea : Bool
  hasCategory : Bool
  rows : List RawRow
deriving DecidableEq

/-- Derived row: the raw columns after imputation plus the two derived
features `Is_Late` (line 102) and `Agent_Age_Group` (line 110). -/
structure Row where
  Weather : Option String
  Traffic : Option String
  Vehicle : Option String
  Area : Option String
  Category : Option String
  Agent_Rating : Option ℚ
  Agent_Age : Option ℚ
  Delivery_Time : Option ℚ
  Is_Late : Bool
  Agent_Age_Group : String
deriving DecidableEq

/-- One sidebar selection per categorical column (lines 120-124); the
string "All" is the no-filter sentinel. -/
structure Selection where
  weather : String
  traffic : String
  vehicle : String
  area : String
  category : String
deriving DecidableEq

/-- Non-null values of a nullable numeric column, in row order (what the
pandas skipna aggregations actually see). -/
def nonNull : List (Option ℚ) → List ℚ
  | [] => []
  | none :: xs => nonNull xs
  | some x :: xs => x :: nonNull xs

/-- Pandas `Series.mean()`: mean of the non-null values, `NaN` (here
`none`) when there are none. -/
def optMean (xs : List (Option ℚ)) : Option ℚ :=
  if (nonNull xs).length = 0 then none
  else some ((nonNull xs).sum / ((nonNull xs).length : ℚ))

/-- Insertion step of the sort used by the median. -/
def insertQ (x : ℚ) : List ℚ → List ℚ
  | [] => [x]
  | y :: ys => if x ≤ y then x :: y :: ys else y :: insertQ x ys

/-- Insertion sort on ℚ (ascending), kept structurally recursive so that
concrete medians evaluate. -/
def sortQ : List ℚ → List ℚ
  | [] => []
  | x :: xs => insertQ x (sortQ xs)

/-- Pandas `Series.median()`: middle of the sorted non-null values (mean of
the two middles for an even count), `NaN`/`none` when there are none. -/
def optMedian (xs : List (Option ℚ)) : Option ℚ :=
  if (nonNull xs).length = 0 then none
  else if (nonNull xs).length % 2 = 1 then
    some ((sortQ (nonNull xs)).getD ((nonNull xs).length / 2) 0)
  else
    some (((sortQ (nonNull xs)).getD ((nonNull xs).length / 2 - 1) 0
           + (sortQ (nonNull xs)).getD ((nonNull xs).length / 2) 0) / 2)

/-- Sample variance of the non-null values (pandas `Series.std()` squared:
`ddof=1`, `NaN`/`none` when fewer than two non-null values).  The source's
`std_delivery_time` is the square root of this; the embedding keeps the
variance and compares squares, which is exact over ℚ. -/
def sampleVar (xs : List (Option ℚ)) : Option ℚ :=
  if (nonNull xs).length < 2 then none
  else
    some (((nonNull xs).map
      (fun x => (x - (nonNull xs).sum / ((nonNull xs).length : ℚ))
              * (x - (nonNull xs).sum / ((nonNull xs).length : ℚ)))).sum
      / (((nonNull xs).length : ℚ) - 1))

/-- Line 92, one column: `df[col].fillna("Unknown")`, applied only when the
column is present. -/
def fillCat (present : Bool) (v : Option String) : Option String :=
  if present then some (v.getD "Unknown") else v

/-- Lines 89-92: the `cat_cols` loop — for each of the five categorical
columns present in the table, replace null with "Unknown"; absent columns
are skipped. -/
def fillCats (t : RawTable) : RawTable :=
  { t with rows := t.rows.map (fun r =>
      { r with
        Weather := fillCat t.hasWeather r.Weather
        Traffic := fillCat t.hasTraffic r.Traffic
        Vehicle := fillCat t.hasVehicle r.Vehicle
        Area := fillCat t.hasArea r.Area
        Category := fillCat t.hasCategory r.Category }) }

/-- Lines 94-95: `df["Agent_Rating"].fillna(df["Agent_Rating"].mean())`.
When the column mean is `NaN` (no non-null values) `fillna(NaN)` leaves the
nulls in place, hence the `none` branch is the identity. -/
def fillRating (t : RawTable) : RawTable :=
  match optMean (t.rows.map (fun r => r.Agent_Rating)) with
  | some m =>
    { t with rows := t.rows.map (fun r =>
        { r with Agent_Rating := some (r.Agent_Rating.getD m) }) }
  | none => t

/-- Lines 97-98: `df["Agent_Age"].fillna(df["Agent_Age"].median())`, same
`NaN`-fill convention as `fillRating`. -/
def fillAge (t : RawTable) : RawTable :=
  match optMedian (t.rows.map (fun r => r.Agent_Age)) with
  | some m =>
    { t with rows := t.rows.map (fun r =>
        { r with Agent_Age := some (r.Agent_Age.getD m) }) }
  | none => t

/-- The dataframe state after lines 89-98 (all imputation done), from which
the scalar statistics of lines 100-101 are computed. -/
def cleaned (t : RawTable) : RawTable :=
  fillAge (fillRating (fillCats t))

/-- Line 100: `avg_delivery_time = df["Delivery_Time"].mean()` over the
full, already-imputed, unfiltered table. -/
def avg_delivery_time (t : RawTable) : Option ℚ :=
  optMean ((cleaned t).rows.map (fun r => r.Delivery_Time))

/-- Line 101 squared: the sample variance whose square root is the source's
`std_delivery_time = df["Delivery_Time"].std()`. -/
def std_delivery_time_sq (t : RawTable) : Option ℚ :=
  sampleVar ((cleaned t).rows.map (fun r => r.Delivery_Time))

/-- Line 102 for one cell: `Delivery_Time > avg + std`.  In pandas every
comparison with `NaN` is `False`, so a null `Delivery_Time`, a `NaN` mean
or a `NaN` std gives `false`.  With all three defined, `x > m + sqrt v`
is rewritten to the exact rational test `m < x ∧ v < (x - m)²` (the square
root is nonnegative); the equivalence is proved in `isLate_iff_real`. -/
def isLate (mOpt vOpt dt : Option ℚ) : Bool :=
  match dt, mOpt, vOpt with
  | some x, some m, some v => decide (m < x) && decide (v < (x - m) * (x - m))
  | _, _, _ => false

/-- Lines 105-108: the `age_group` bucketing function. -/
def age_group (age : ℚ) : String :=
  if age < 25 then "<25"
  else if age ≤ 40 then "25-40"
  else "40+"

/-- Line 110 for one cell: `age_group` applied to a possibly-null age.  A
float `NaN` age falls through both comparisons (`NaN < 25` and `NaN <= 40`
are `False` in Python), landing in the "40+" branch. -/
def age_group_cell : Option ℚ → String
  | some a => age_group a
  | none => "40+"

/-- Lines 102 and 110 for one row: attach `Is_Late` and `Agent_Age_Group`
to an (already imputed) raw row. -/
def addFeatures (mOpt vOpt : Option ℚ) (r : RawRow) : Row :=
  { Weather := r.Weather
    Traffic := r.Traffic
    Vehicle := r.Vehicle
    Area := r.Area
    Category := r.Category
    Agent_Rating := r.Agent_Rating
    Agent_Age := r.Agent_Age
    Delivery_Time := r.Delivery_Time
    Is_Late := isLate mOpt vOpt r.Delivery_Time
    Agent_Age_Group := age_group_cell r.Agent_Age }

/-- Lines 89-110: the full derived table — imputation, then `Is_Late`
against the dataset-wide mean/std of lines 100-101, then the age groups. -/
def derive (t : RawTable) : List Row :=
  (cleaned t).rows.map
    (addFeatures (avg_delivery_time t) (std_delivery_time_sq t))

/-- Line 103: `late_percentage = df["Is_Late"].mean() * 100` over the full
derived table (`NaN`/`none` for an empty table). -/
def late_percentage (t : RawTable) : Option ℚ :=
  if (derive t).length = 0 then none
  else some ((((derive t).countP (fun r => r.Is_Late)) : ℚ)
             / ((derive t).length : ℚ) * 100)

/-- One line of 127-131: `if sel != "All": filtered = filtered[filtered[col] == sel]`.
Pandas `==` against a `NaN` cell is `False`, hence the `Option.some` match. -/
def filterStep (sel : String) (col : Row → Option String) (rows : List Row) : List Row :=
  if sel = "All" then rows
  else rows.filter (fun r => col r == some sel)

/-- Lines 126-131: the five sequentially applied equality filters, in
source order (Weather, Traffic, Vehicle, Area, Category). -/
def filtered_df (s : Selection) (rows : List Row) : List Row :=
  filterStep s.category (fun r => r.Category)
    (filterStep s.area (fun r => r.Area)
      (filterStep s.vehicle (fun r => r.Vehicle)
        (filterStep s.traffic (fun r => r.Traffic)
          (filterStep s.weather (fun r => r.Weather) rows))))

/-- The spec's per-column predicate, written from the spec text: "All"
imposes no predicate, anything else requires exact equality. -/
def specColMatch (sel : String) (v : Option String) : Bool :=
  sel == "All" || v == some sel

/-- The spec's row predicate: conjunction (logical AND) of the five
per-column predicates.  Stated from the spec, to be compared with the
source's `filtered_df`. -/
def rowPred (s : Selection) (r : Row) : Bool :=
  specColMatch s.weather r.Weather
  && specColMatch s.traffic r.Traffic
  && specColMatch s.vehicle r.Vehicle
  && specColMatch s.area r.Area
  && specColMatch s.category r.Category

/-- KPI cards of lines 136-157: average delivery time (line 141, a full-
table scalar), late percentage (line 148, a full-table scalar) and the
filtered row count (line 155, `len(filtered_df)`). -/
structure KPIs where
  avgTime : Option ℚ
  latePct : Option ℚ
  recordCount : Nat
deriving DecidableEq

/-- What the dashboard shows for a raw table and a sidebar selection: only
the record count depends on the selection. -/
def kpis (t : RawTable) (s : Selection) : KPIs :=
  { avgTime := avg_delivery_time t
    latePct := late_percentage t
    recordCount := (filtered_df s (derive t)).length }

/-- Insertion step of the sort on group keys. -/
def insertStr (x : String) : List String → List String
  | [] => [x]
  | y :: ys => if x ≤ y then x :: y :: ys else y :: insertStr x ys

/-- Insertion sort on strings, modelling the sorted group keys a pandas
`groupby` emits. -/
def sortStr : List String → List String
  | [] => []
  | x :: xs => insertStr x (sortStr xs)

/-- Non-null string cells of a column, in row order. -/
def nonNullStr : List (Option String) → List String
  | [] => []
  | none :: xs => nonNullStr xs
  | some x :: xs => x :: nonNullStr xs

/-- Pandas `df.groupby(key)[val].mean()`: one output pair per distinct
non-null key (sorted; `NaN` keys are dropped, the groupby default), the
mean taken over that group's values with skipna.  A key with no rows simply
does not appear — there are no synthetic zero-filled buckets. -/
def groupMean (key : Row → Option String) (val : Row → Option ℚ)
    (rows : List Row) : List (String × Option ℚ) :=
  (sortStr ((nonNullStr (rows.map key)).dedup)).map
    (fun k => (k, optMean ((rows.filter (fun r => key r == some k)).map val)))

/-- Lines 174-178: the data behind `fig2`,
`filtered_df.groupby("Vehicle")["Delivery_Time"].mean()`. -/
def fig2_data (rows : List Row) : List (String × Option ℚ) :=
  groupMean (fun r => r.Vehicle) (fun r => r.Delivery_Time) rows

/-- Lines 197-198: `late_df = filtered_df.groupby("Weather")["Is_Late"].mean()`
followed by `late_df["Late_%"] = late_df["Is_Late"] * 100`.  The boolean
column is averaged as 0/1 values. -/
def late_df (rows : List Row) : List (String × Option ℚ) :=
  (groupMean (fun r => r.Weather)
      (fun r => some (if r.Is_Late then (1 : ℚ) else 0)) rows).map
    (fun p => (p.1, p.2.map (fun x => x * 100)))

/-- Null-fill of one numeric cell with a (possibly `NaN`) statistic: the
common shape of the `fillna` calls at lines 95 and 98. -/
def fillNum (stat : Option ℚ) : Option ℚ → Option ℚ
  | some x => some x
  | none => stat

/-- Python value in a dynamically-typed dataframe cell: a number or a
string.  Used to model line 110 applied to an `object`-dtype age column. -/
inductive PyVal where
  | num (q : ℚ)
  | str (s : String)
deriving DecidableEq

/-- Lines 105-108 under Python dynamic typing: `age < 25` on a string age
raises `TypeError` (there is no try/except in `age_group`). -/
def age_group_py : PyVal → Except String String
  | PyVal.num a => Except.ok (age_group a)
  | PyVal.str _ =>
      Except.error "TypeError: not supported between instances of str and int"

/-- Line 110: `df["Agent_Age"].apply(age_group)`.  `Series.apply` evaluates
row by row and propagates the first exception; on an exception no column is
produced at all (the whole script aborts), so the result is all-or-nothing. -/
def apply_age_group : List PyVal → Except String (List String)
  | [] => Except.ok []
  | a :: as =>
    match age_group_py a with
    | Except.error e => Except.error e
    | Except.ok g =>
      match apply_age_group as with
      | Except.error e => Except.error e
      | Except.ok gs => Except.ok (g :: gs)

/-! Concrete inputs used by the witnesses and counterexamples. -/

/-- The all-"All" sidebar selection. -/
def selAll : Selection :=
  { weather := "All", traffic := "All", vehicle := "All"
    area := "All", category := "All" }

/-- Raw row of the four-row example dataset, parameterized by its
delivery time. -/
def exRow (dt : ℚ) : RawRow :=
  { Weather := some "Sunny", Traffic := some "Low", Vehicle := some "Bike"
    Area := some "Urban", Category := some "Food"
    Agent_Rating := some 4, Agent_Age := some 30, Delivery_Time := some dt }

/-- Four-row example dataset: Delivery_Time 21, 27, 33, 39, so the mean is
30, the sample variance 60, the threshold 30 + sqrt 60 ≈ 37.75, and only
the 39-minute row is late. -/
def tEx : RawTable :=
  { hasWeather := true, hasTraffic := true, hasVehicle := true
    hasArea := true, hasCategory := true
    rows := [exRow 21, exRow 27, exRow 33, exRow 39] }

/-- Derived row of the example dataset with the given delivery time and
late flag. -/
def exDRow (dt : ℚ) (late : Bool) : Row :=
  { Weather := some "Sunny", Traffic := some "Low", Vehicle := some "Bike"
    Area := some "Urban", Category := some "Food"
    Agent_Rating := some 4, Agent_Age := some 30, Delivery_Time := some dt
    Is_Late := late, Agent_Age_Group := "25-40" }

/-- Raw row with a possibly-null delivery time (for the null-propagation
claims): mean over the non-null times is 15, sample variance 50. -/
def c6Row (dt : Option ℚ) : RawRow :=
  { Weather := some "Fog", Traffic := some "Jam", Vehicle := some "Van"
    Area := some "Metro", Category := some "Toys"
    Agent_Rating := some 5, Agent_Age := some 30, Delivery_Time := dt }

/-- Three-row dataset whose last row has a null Delivery_Time. -/
def tC6 : RawTable :=
  { hasWeather := true, hasTraffic := true, hasVehicle := true
    hasArea := true, hasCategory := true
    rows := [c6Row (some 10), c6Row (some 20), c6Row none] }

/-- Derived row of `tC6`: no row is late (threshold 15 + sqrt 50 ≈ 22.07
and the null row compares false). -/
def c6DRow (dt : Option ℚ) : Row :=
  { Weather := some "Fog", Traffic := some "Jam", Vehicle := some "Van"
    Area := some "Metro", Category := some "Toys"
    Agent_Rating := some 5, Agent_Age := some 30, Delivery_Time := dt
    Is_Late := false, Agent_Age_Group := "25-40" }

/-- One-row dataset with the Traffic column absent, a null Weather cell and
an all-null Agent_Rating column. -/
def tW : RawTable :=
  { hasWeather := true, hasTraffic := false, hasVehicle := true
    hasArea := true, hasCategory := true
    rows := [ { Weather := none, Traffic := none, Vehicle := some "Bike"
                Area := some "Urban", Category := some "Food"
                Agent_Rating := none, Agent_Age := some 20
                Delivery_Time := some 10 } ] }

/-- The derived row of `tW`: Weather filled with "Unknown", the absent
Traffic column untouched, the all-null rating untouched, one delivery time
so the std is NaN and the row is not late. -/
def rW : Row :=
  { Weather := some "Unknown", Traffic := none, Vehicle := some "Bike"
    Area := some "Urban", Category := some "Food"
    Agent_Rating := none, Agent_Age := some 20, Delivery_Time := some 10
    Is_Late := false, Agent_Age_Group := "<25" }

/-- One-row dataset for the empty-filter claim. -/
def t9 : RawTable :=
  { hasWeather := true, hasTraffic := true, hasVehicle := true
    hasArea := true, hasCategory := true
    rows := [exRow 21] }

/-- Selection whose Weather value matches no row of `t9`. -/
def sel9 : Selection :=
  { weather := "Rainy", traffic := "All", vehicle := "All"
    area := "All", category := "All" }

/-- Derived rows used by the filter-semantics witness. -/
def rowA : Row :=
  { Weather := some "Sunny", Traffic := some "Low", Vehicle := some "Bike"
    Area := some "Urban", Category := some "Food"
    Agent_Rating := some 1, Agent_Age := some 30, Delivery_Time := some 10
    Is_Late := false, Agent_Age_Group := "25-40" }

/-- Second filter-witness row, differing from `rowA` in Weather. -/
def rowB : Row :=
  { Weather := some "Stormy", Traffic := some "Low", Vehicle := some "Bike"
    Area := some "Urban", Category := some "Food"
    Agent_Rating := some 1, Agent_Age := some 30, Delivery_Time := some 10
    Is_Late := false, Agent_Age_Group := "25-40" }

/-- Selection filtering Weather to "Sunny" only. -/
def selSunny : Selection :=
  { weather := "Sunny", traffic := "All", vehicle := "All"
    area := "All", category := "All" }

/-- Raw rows with a null rating and a null age, for the imputation
witness: rating mean 3 over the non-null cells, age median 25. -/
def tC8 : RawTable :=
  { hasWeather := true, hasTraffic := true, hasVehicle := true
    hasArea := true, hasCategory := true
    rows := [ { Weather := some "Sunny", Traffic := some "Low", Vehicle := some "Bike"
                Area := some "Urban", Category := some "Food"
                Agent_Rating := some 2, Agent_Age := some 20
                Delivery_Time := some 10 }
            , { Weather := some "Sunny", Traffic := some "Low", Vehicle := some "Bike"
                Area := some "Urban", Category := some "Food"
                Agent_Rating := none, Agent_Age := some 30
                Delivery_Time := some 20 }
            , { Weather := some "Sunny", Traffic := some "Low", Vehicle := some "Bike"
                Area := some "Urban", Category := some "Food"
                Agent_Rating := some 4, Agent_Age := none
                Delivery_Time := some 30 } ] }

/-! Structural lemmas about the pipeline. -/

theorem fillNum_none (v : Option ℚ) : fillNum none v = v := by
  cases v <;> rfl

theorem fillNum_some (m : ℚ) (v : Option ℚ) :
    fillNum (some m) v = some (v.getD m) := by
  cases v <;> rfl

theorem fillCats_rows (t : RawTable) :
    (fillCats t).rows = t.rows.map (fun r =>
      { r with
        Weather := fillCat t.hasWeather r.Weather
        Traffic := fillCat t.hasTraffic r.Traffic
        Vehicle := fillCat t.hasVehicle r.Vehicle
        Area := fillCat t.hasArea r.Area
        Category := fillCat t.hasCategory r.Category }) := rfl

theorem fillRating_rows (t : RawTable) :
    (fillRating t).rows = t.rows.map (fun r =>
      { r with Agent_Rating :=
          fillNum (optMean (t.rows.map (fun x => x.Agent_Rating))) r.Agent_Rating }) := by
  unfold fillRating
  cases h : optMean (t.rows.map (fun x => x.Agent_Rating)) with
  | none =>
    show t.rows = _
    simp [fillNum_none]
  | some m =>
    show t.rows.map _ = _
    simp [fillNum_some]

theorem fillAge_rows (t : RawTable) :
    (fillAge t).rows = t.rows.map (fun r =>
      { r with Agent_Age :=
          fillNum (optMedian (t.rows.map (fun x => x.Agent_Age))) r.Agent_Age }) := by
  unfold fillAge
  cases h : optMedian (t.rows.map (fun x => x.Agent_Age)) with
  | none =>
    show t.rows = _
    simp [fillNum_none]
  | some m =>
    show t.rows.map _ = _
    simp [fillNum_some]

theorem fillCats_map_rating (t : RawTable) :
    (fillCats t).rows.map (fun r => r.Agent_Rating)
      = t.rows.map (fun r => r.Agent_Rating) := by
  rw [fillCats_rows, List.map_map]; rfl

theorem fillCats_map_age (t : RawTable) :
    (fillCats t).rows.map (fun r => r.Agent_Age)
      = t.rows.map (fun r => r.Agent_Age) := by
  rw [fillCats_rows, List.map_map]; rfl

theorem fillRating_map_age (t : RawTable) :
    (fillRating t).rows.map (fun r => r.Agent_Age)
      = t.rows.map (fun r => r.Agent_Age) := by
  rw [fillRating_rows, List.map_map]; rfl

theorem cleaned_map_dt (t : RawTable) :
    (cleaned t).rows.map (fun r => r.Delivery_Time)
      = t.rows.map (fun r => r.Delivery_Time) := by
  unfold cleaned
  rw [fillAge_rows, List.map_map, fillRating_rows, List.map_map,
      fillCats_rows, List.map_map]
  rfl

/-- Master characterization of `derive`: one pass over the raw rows.  All
imputation statistics on the right-hand side are over the original raw
columns, which is what makes the later per-claim statements meaningful. -/
theorem derive_eq (t : RawTable) :
    derive t = t.rows.map (fun r =>
      ({ Weather := fillCat t.hasWeather r.Weather
         Traffic := fillCat t.hasTraffic r.Traffic
         Vehicle := fillCat t.hasVehicle r.Vehicle
         Area := fillCat t.hasArea r.Area
         Category := fillCat t.hasCategory r.Category
         Agent_Rating := fillNum (optMean (t.rows.map (fun x => x.Agent_Rating))) r.Agent_Rating
         Agent_Age := fillNum (optMedian (t.rows.map (fun x => x.Agent_Age))) r.Agent_Age
         Delivery_Time := r.Delivery_Time
         Is_Late := isLate (avg_delivery_time t) (std_delivery_time_sq t) r.Delivery_Time
         Agent_Age_Group := age_group_cell
           (fillNum (optMedian (t.rows.map (fun x => x.Agent_Age))) r.Agent_Age) } : Row)) := by
  have hage : (fillRating (fillCats t)).rows.map (fun x => x.Agent_Age)
      = t.rows.map (fun x => x.Agent_Age) := by
    rw [fillRating_map_age, fillCats_map_age]
  unfold derive cleaned
  rw [fillAge_rows, hage, fillRating_rows, fillCats_map_rating,
      fillCats_rows, List.map_map, List.map_map, List.map_map]
  rfl

theorem derive_length (t : RawTable) :
    (derive t).length = t.rows.length := by
  rw [derive_eq, List.length_map]

theorem avg_eq_raw (t : RawTable) :
    avg_delivery_time t = optMean (t.rows.map (fun r => r.Delivery_Time)) := by
  unfold avg_delivery_time
  rw [cleaned_map_dt]

theorem std_sq_eq_raw (t : RawTable) :
    std_delivery_time_sq t = sampleVar (t.rows.map (fun r => r.Delivery_Time)) := by
  unfold std_delivery_time_sq
  rw [cleaned_map_dt]

theorem isLate_none_dt (mOpt vOpt : Option ℚ) : isLate mOpt vOpt none = false := by
  cases mOpt <;> cases vOpt <;> rfl

/-- The rational test in `isLate` is exactly the source's real comparison
`Delivery_Time > avg + std` with `std` the square root of the variance. -/
theorem isLate_iff_real (m v : ℚ) (dt : Option ℚ) :
    isLate (some m) (some v) dt = true ↔
      ∃ x : ℚ, dt = some x ∧ (m : ℝ) + Real.sqrt (v : ℝ) < (x : ℝ) := by
  cases dt with
  | none => simp [isLate]
  | some x =>
    simp only [isLate, Bool.and_eq_true, decide_eq_true_eq, Option.some.injEq]
    constructor
    · rintro ⟨h1, h2⟩
      refine ⟨x, rfl, ?_⟩
      have hpos : (0:ℝ) < (x:ℝ) - (m:ℝ) := by
        have : (m:ℝ) < (x:ℝ) := by exact_mod_cast h1
        linarith
      have h2R : (v:ℝ) < ((x:ℝ) - (m:ℝ)) ^ 2 := by
        have : (v:ℝ) < ((x:ℝ) - (m:ℝ)) * ((x:ℝ) - (m:ℝ)) := by
          exact_mod_cast h2
        nlinarith [this]
      have := (Real.sqrt_lt' hpos).mpr h2R
      linarith
    · rintro ⟨y, hy, h⟩
      subst hy
      have hs : (0:ℝ) ≤ Real.sqrt (v:ℝ) := Real.sqrt_nonneg _
      have hmx : (m:ℝ) < (x:ℝ) := by linarith
      have hpos : (0:ℝ) < (x:ℝ) - (m:ℝ) := by linarith
      have h2 : Real.sqrt (v:ℝ) < (x:ℝ) - (m:ℝ) := by linarith
      have h3 : (v:ℝ) < ((x:ℝ) - (m:ℝ)) ^ 2 := (Real.sqrt_lt' hpos).mp h2
      constructor
      · exact_mod_cast hmx
      · have : (v:ℝ) < ((x:ℝ) - (m:ℝ)) * ((x:ℝ) - (m:ℝ)) := by nlinarith [h3]
        exact_mod_cast this

/-! Filter-engine lemmas. -/

theorem filterStep_eq_filter (sel : String) (col : Row → Option String)
    (rows : List Row) :
    filterStep sel col rows = rows.filter (fun r => specColMatch sel (col r)) := by
  by_cases h : sel = "All"
  · simp [filterStep, h, specColMatch]
  · have hb : (sel == "All") = false := by
      simp [h]
    simp [filterStep, h, specColMatch, hb]

theorem filtered_df_eq_filter (s : Selection) (rows : List Row) :
    filtered_df s rows = rows.filter (rowPred s) := by
  unfold filtered_df
  rw [filterStep_eq_filter, filterStep_eq_filter, filterStep_eq_filter,
      filterStep_eq_filter, filterStep_eq_filter,
      List.filter_filter, List.filter_filter, List.filter_filter,
      List.filter_filter]
  apply List.filter_congr
  intro r _
  unfold rowPred
  cases specColMatch s.weather r.Weather <;>
    cases specColMatch s.traffic r.Traffic <;>
      cases specColMatch s.vehicle r.Vehicle <;>
        cases specColMatch s.area r.Area <;>
          cases specColMatch s.category r.Category <;> rfl

theorem filterStep_sublist (sel : String) (col : Row → Option String)
    (rows : List Row) : List.Sublist (filterStep sel col rows) rows := by
  by_cases h : sel = "All"
  · simp [filterStep, h]
  · simp only [filterStep, h, if_false]
    exact List.filter_sublist rows

theorem filtered_df_sublist (s : Selection) (rows : List Row) :
    List.Sublist (filtered_df s rows) rows := by
  unfold filtered_df
  exact ((((filterStep_sublist _ _ _).trans
    (filterStep_sublist _ _ _)).trans
      (filterStep_sublist _ _ _)).trans
        (filterStep_sublist _ _ _)).trans
          (filterStep_sublist _ _ _)

theorem filtered_df_all (rows : List Row) :
    filtered_df selAll rows = rows := by
  simp [filtered_df, filterStep, selAll]

theorem length_filter_partition {α : Type} (p : α → Bool) (l : List α) :
    (l.filter p).length + (l.filter (fun a => !(p a))).length = l.length := by
  induction l with
  | nil => rfl
  | cons a l ih =>
    by_cases h : p a <;> simp [List.filter_cons, h] <;> omega

/-! Aggregation lemmas. -/

theorem nonNull_map_some {α : Type} (f : α → ℚ) (l : List α) :
    nonNull (l.map (fun a => some (f a))) = l.map f := by
  induction l with
  | nil => rfl
  | cons a l ih => simp [nonNull, ih]

theorem sum_indicator_eq_countP (l : List Row) :
    (l.map (fun r => if r.Is_Late then (1:ℚ) else 0)).sum
      = ((l.countP (fun r => r.Is_Late)) : ℚ) := by
  induction l with
  | nil => simp
  | cons a l ih =>
    by_cases h : a.Is_Late = true
    · simp [h, ih, List.countP_cons]
      ring
    · simp [h, ih, List.countP_cons]

theorem groupMean_nil (key : Row → Option String) (val : Row → Option ℚ) :
    groupMean key val [] = [] := by
  simp [groupMean, nonNullStr, sortStr]

/-! Concrete evaluations of the pipeline on the witness datasets. -/

theorem avg_tEx : avg_delivery_time tEx = some 30 := by
  rw [avg_eq_raw]
  norm_num [tEx, exRow, optMean, nonNull]

theorem std_tEx : std_delivery_time_sq tEx = some 60 := by
  rw [std_sq_eq_raw]
  norm_num [tEx, exRow, sampleVar, nonNull]

theorem derive_tEx :
    derive tEx = [exDRow 21 false, exDRow 27 false, exDRow 33 false, exDRow 39 true] := by
  rw [derive_eq, avg_tEx, std_tEx]
  norm_num [tEx, exRow, exDRow, fillCat, fillNum, isLate, age_group_cell, age_group]

theorem avg_tC6 : avg_delivery_time tC6 = some 15 := by
  rw [avg_eq_raw]
  norm_num [tC6, c6Row, optMean, nonNull]

theorem std_tC6 : std_delivery_time_sq tC6 = some 50 := by
  rw [std_sq_eq_raw]
  norm_num [tC6, c6Row, sampleVar, nonNull]

theorem derive_tC6 :
    derive tC6 = [c6DRow (some 10), c6DRow (some 20), c6DRow none] := by
  rw [derive_eq, avg_tC6, std_tC6]
  norm_num [tC6, c6Row, c6DRow, fillCat, fillNum, isLate, age_group_cell, age_group]

theorem avg_tW : avg_delivery_time tW = some 10 := by
  rw [avg_eq_raw]
  norm_num [tW, optMean, nonNull]

theorem std_tW : std_delivery_time_sq tW = none := by
  rw [std_sq_eq_raw]
  norm_num [tW, sampleVar, nonNull]

theorem derive_tW : derive tW = [rW] := by
  rw [derive_eq, avg_tW, std_tW]
  norm_num [tW, rW, fillCat, fillNum, isLate, age_group_cell, age_group,
    optMean, optMedian, nonNull, sortQ, insertQ]

theorem avg_t9 : avg_delivery_time t9 = some 21 := by
  rw [avg_eq_raw]
  norm_num [t9, exRow, optMean, nonNull]

theorem std_t9 : std_delivery_time_sq t9 = none := by
  rw [std_sq_eq_raw]
  norm_num [t9, exRow, sampleVar, nonNull]

theorem derive_t9 : derive t9 = [exDRow 21 false] := by
  rw [derive_eq, avg_t9, std_t9]
  norm_num [t9, exRow, exDRow, fillCat, fillNum, isLate, age_group_cell, age_group]

theorem specColMatch_eq_of_ne (sel : String) (v : Option String)
    (h : specColMatch sel v = true) (hne : sel ≠ "All") : v = some sel := by
  unfold specColMatch at h
  have hb : (sel == "All") = false := by simp [hne]
  rw [hb, Bool.false_or, beq_iff_eq] at h
  exact h

/-! The claims. -/

/-- C1: for every row of the derived table (seen through any filter
selection), `Is_Late` is true iff that row's `Delivery_Time` strictly
exceeds `mean(Delivery_Time) + stddev(Delivery_Time)`, both computed once
over the entire unfiltered dataset after imputation.  The threshold
`avg_delivery_time t` / `std_delivery_time_sq t` depends only on the raw
table — the same constant appears for every selection `s`, so no filter
recomputes or alters it. -/
theorem C1_is_late_threshold_fixed (t : RawTable) (s : Selection) (r : Row)
    (m v : ℚ) (hm : avg_delivery_time t = some m)
    (hv : std_delivery_time_sq t = some v)
    (hr : r ∈ filtered_df s (derive t)) :
    r.Is_Late = true ↔
      ∃ x : ℚ, r.Delivery_Time = some x
        ∧ (m : ℝ) + Real.sqrt (v : ℝ) < (x : ℝ) := by
  have hr2 : r ∈ derive t := (filtered_df_sublist s (derive t)).subset hr
  unfold derive at hr2
  rw [hm, hv] at hr2
  obtain ⟨r0, _, rfl⟩ := List.mem_map.mp hr2
  exact isLate_iff_real m v r0.Delivery_Time

/-- C1 witness: in the four-row dataset with times 21, 27, 33, 39 the
threshold is 30 + sqrt 60 and the 39-minute row (and only it) is late,
also in the unfiltered view. -/
theorem C1_witness :
    avg_delivery_time tEx = some 30
  ∧ std_delivery_time_sq tEx = some 60
  ∧ exDRow 39 true ∈ filtered_df selAll (derive tEx)
  ∧ ((exDRow 39 true).Is_Late = true ↔
      ∃ x : ℚ, (exDRow 39 true).Delivery_Time = some x
        ∧ ((30:ℚ) : ℝ) + Real.sqrt (((60:ℚ)) : ℝ) < (x : ℝ)) := by
  have hmem : exDRow 39 true ∈ filtered_df selAll (derive tEx) := by
    rw [filtered_df_all, derive_tEx]
    simp
  exact ⟨avg_tEx, std_tEx, hmem,
    C1_is_late_threshold_fixed tEx selAll (exDRow 39 true) 30 60 avg_tEx std_tEx hmem⟩

/-- C2: the filter engine keeps exactly the rows satisfying the
conjunction of the per-column predicates (the sentinel "All" imposes no
predicate, any other selection requires exact string equality); the
all-"All" selection returns the table row-for-row; each kept row carries
the selected value in every constrained column; and the kept rows together
with their complement partition the table. -/
theorem C2_filter_conjunction (s : Selection) (rows : List Row) :
    filtered_df s rows = rows.filter (rowPred s)
  ∧ filtered_df selAll rows = rows
  ∧ (∀ r ∈ filtered_df s rows,
        (s.weather ≠ "All" → r.Weather = some s.weather)
      ∧ (s.traffic ≠ "All" → r.Traffic = some s.traffic)
      ∧ (s.vehicle ≠ "All" → r.Vehicle = some s.vehicle)
      ∧ (s.area ≠ "All" → r.Area = some s.area)
      ∧ (s.category ≠ "All" → r.Category = some s.category))
  ∧ (filtered_df s rows).length
      + (rows.filter (fun r => !(rowPred s r))).length = rows.length := by
  refine ⟨filtered_df_eq_filter s rows, filtered_df_all rows, ?_, ?_⟩
  · intro r hr
    rw [filtered_df_eq_filter] at hr
    have hp := (List.mem_filter.mp hr).2
    unfold rowPred at hp
    simp only [Bool.and_eq_true] at hp
    obtain ⟨⟨⟨⟨hw, ht⟩, hv⟩, ha⟩, hc⟩ := hp
    exact ⟨specColMatch_eq_of_ne _ _ hw, specColMatch_eq_of_ne _ _ ht,
      specColMatch_eq_of_ne _ _ hv, specColMatch_eq_of_ne _ _ ha,
      specColMatch_eq_of_ne _ _ hc⟩
  · rw [filtered_df_eq_filter]
    exact length_filter_partition (rowPred s) rows

/-- C2 witness: filtering two rows by Weather = "Sunny" keeps exactly the
Sunny row, and the partition equation holds. -/
theorem C2_witness :
    filtered_df selSunny [rowA, rowB] = [rowA, rowB].filter (rowPred selSunny)
  ∧ filtered_df selAll [rowA, rowB] = [rowA, rowB]
  ∧ (∀ r ∈ filtered_df selSunny [rowA, rowB],
        (selSunny.weather ≠ "All" → r.Weather = some selSunny.weather)
      ∧ (selSunny.traffic ≠ "All" → r.Traffic = some selSunny.traffic)
      ∧ (selSunny.vehicle ≠ "All" → r.Vehicle = some selSunny.vehicle)
      ∧ (selSunny.area ≠ "All" → r.Area = some selSunny.area)
      ∧ (selSunny.category ≠ "All" → r.Category = some selSunny.category))
  ∧ (filtered_df selSunny [rowA, rowB]).length
      + ([rowA, rowB].filter (fun r => !(rowPred selSunny r))).length
      = ([rowA, rowB] : List Row).length :=
  C2_filter_conjunction selSunny [rowA, rowB]

/-- C3: `late_percentage` is exactly `100 × mean(Is_Late)` over the full
unfiltered derived table, and the KPI shown by the dashboard is the same
scalar for every filter selection. -/
theorem C3_late_percentage_invariant (t : RawTable) (s1 s2 : Selection) :
    (kpis t s1).latePct = late_percentage t
  ∧ (kpis t s1).latePct = (kpis t s2).latePct
  ∧ late_percentage t
      = Option.map (fun m => 100 * m)
          (optMean ((derive t).map (fun r => some (if r.Is_Late then (1:ℚ) else 0)))) := by
  refine ⟨rfl, rfl, ?_⟩
  unfold late_percentage optMean
  rw [nonNull_map_some (fun r => if r.Is_Late then (1:ℚ) else 0) (derive t),
      List.length_map, sum_indicator_eq_countP]
  by_cases h : (derive t).length = 0
  · simp [h]
  · rw [if_neg h, if_neg h]
    simp only [Option.map]
    congr 1
    ring

/-- C3 witness: on the four-row example (one late row) the KPI is 25% for
the all-"All" selection and for the Weather = "Rainy" selection alike. -/
theorem C3_witness :
    (kpis tEx selAll).latePct = late_percentage tEx
  ∧ (kpis tEx selAll).latePct = (kpis tEx sel9).latePct
  ∧ late_percentage tEx
      = Option.map (fun m => 100 * m)
          (optMean ((derive tEx).map (fun r => some (if r.Is_Late then (1:ℚ) else 0)))) :=
  C3_late_percentage_invariant tEx selAll sel9

/-- C4: the age bucketing sends `age < 25` to "<25", `25 ≤ age ≤ 40` to
"25-40" and `age > 40` to "40+"; in particular 24, 25, 40 and 41 land in
"<25", "25-40", "25-40" and "40+" respectively. -/
theorem C4_age_buckets :
    (∀ a : ℚ, (a < 25 → age_group a = "<25")
      ∧ (25 ≤ a → a ≤ 40 → age_group a = "25-40")
      ∧ (40 < a → age_group a = "40+"))
  ∧ age_group 24 = "<25" ∧ age_group 25 = "25-40"
  ∧ age_group 40 = "25-40" ∧ age_group 41 = "40+" := by
  refine ⟨?_, by norm_num [age_group], by norm_num [age_group],
    by norm_num [age_group], by norm_num [age_group]⟩
  intro a
  refine ⟨?_, ?_, ?_⟩
  · intro h
    simp [age_group, h]
  · intro h1 h2
    have hn : ¬ a < 25 := not_lt.mpr h1
    simp [age_group, hn, h2]
  · intro h
    have h1 : ¬ a < 25 := by linarith
    have h2 : ¬ a ≤ 40 := not_le.mpr h
    simp [age_group, h1, h2]

/-- C4 witness: a 30-year-old agent is bucketed "25-40". -/
theorem C4_witness : age_group 30 = "25-40" :=
  (C4_age_buckets.1 30).2.1 (by norm_num) (by norm_num)

/-- C5 counterexample: with a non-numeric age between two numeric ones,
line 110's `apply` raises a `TypeError` and produces no column at all — it
does not raise an `InvalidAgeError` and it does not return a bucketing
with the offending row excluded (which would be an `Except.ok` list). -/
theorem C5_counterexample :
    apply_age_group [PyVal.num 30, PyVal.str "abc", PyVal.num 20]
      = Except.error "TypeError: not supported between instances of str and int" := by
  norm_num [apply_age_group, age_group_py]

/-- C5 as the code actually behaves: a non-numeric age surviving imputation
makes the whole `apply` abort with a `TypeError` (no row is excluded, no
partial column is produced), while all-numeric ages never error and yield
one bucket per row. -/
theorem C5_nonnumeric_age_aborts (ages : List PyVal) :
    ((∃ s, PyVal.str s ∈ ages) → ∃ e, apply_age_group ages = Except.error e)
  ∧ ((∀ v ∈ ages, ∃ q, v = PyVal.num q) →
      ∃ gs, apply_age_group ages = Except.ok gs ∧ gs.length = ages.length) := by
  induction ages with
  | nil =>
    constructor
    · rintro ⟨s, hs⟩
      simp at hs
    · intro
      exact ⟨[], rfl, rfl⟩
  | cons a as ih =>
    constructor
    · rintro ⟨s, hs⟩
      rcases List.mem_cons.mp hs with h | h
      · refine ⟨"TypeError: not supported between instances of str and int", ?_⟩
        rw [← h]
        rfl
      · obtain ⟨e, he⟩ := ih.1 ⟨s, h⟩
        cases hag : age_group_py a with
        | error e2 => exact ⟨e2, by simp [apply_age_group, hag]⟩
        | ok g => exact ⟨e, by simp [apply_age_group, hag, he]⟩
    · intro hall
      obtain ⟨q, hq⟩ := hall a (List.mem_cons_self a as)
      obtain ⟨gs, hgs, hlen⟩ := ih.2 (fun v hv => hall v (List.mem_cons_of_mem a hv))
      subst hq
      refine ⟨age_group q :: gs, ?_, by simp [hlen]⟩
      simp [apply_age_group, age_group_py, hgs]

/-- C5 witness: a singleton non-numeric age aborts the apply. -/
theorem C5_witness :
    (∃ s, PyVal.str s ∈ [PyVal.str "x"])
  ∧ ∃ e, apply_age_group [PyVal.str "x"] = Except.error e :=
  ⟨⟨"x", by simp⟩, (C5_nonnumeric_age_aborts [PyVal.str "x"]).1 ⟨"x", by simp⟩⟩

/-- C6 counterexample: in the three-row table whose last Delivery_Time is
null, the dataset mean is the definite value 15 (pandas mean skips NaN,
it does not propagate it) and the null row's `Is_Late` is the definite
boolean `false` (a NaN comparison yields False) — not an undefined /
NaN-propagating value as the claim states. -/
theorem C6_counterexample :
    avg_delivery_time tC6 = some 15
  ∧ c6DRow none ∈ derive tC6
  ∧ (c6DRow none).Delivery_Time = none
  ∧ (c6DRow none).Is_Late = false := by
  refine ⟨avg_tC6, ?_, rfl, rfl⟩
  rw [derive_tC6]
  simp

/-- C6 as the code actually behaves: `Delivery_Time` is never imputed (the
derived column equals the raw column row for row), and a row whose
`Delivery_Time` is null gets the definite flag `Is_Late = false` (the
aggregate statistics, being skipna, stay defined whenever enough non-null
values exist). -/
theorem C6_dt_never_imputed (t : RawTable) :
    (derive t).map (fun r => r.Delivery_Time) = t.rows.map (fun r => r.Delivery_Time)
  ∧ (∀ r ∈ derive t, r.Delivery_Time = none → r.Is_Late = false) := by
  constructor
  · rw [derive_eq, List.map_map]
    rfl
  · intro r hr hdt
    rw [derive_eq] at hr
    obtain ⟨r0, _, rfl⟩ := List.mem_map.mp hr
    have h0 : r0.Delivery_Time = none := hdt
    show isLate _ _ r0.Delivery_Time = false
    rw [h0, isLate_none_dt]

/-- C6 witness: the null-time row of the concrete table keeps its null and
is flagged not-late. -/
theorem C6_witness :
    c6DRow none ∈ derive tC6
  ∧ (c6DRow none).Delivery_Time = none
  ∧ (c6DRow none).Is_Late = false := by
  have hmem : c6DRow none ∈ derive tC6 := by
    rw [derive_tC6]
    simp
  exact ⟨hmem, rfl, (C6_dt_never_imputed tC6).2 (c6DRow none) hmem rfl⟩

/-- C7: after derivation no present categorical column contains null, and
the fill value is exactly the sentinel "Unknown" — for each present column
the derived cells are the raw cells with every null replaced by
`some "Unknown"` and every non-null value unchanged; each of the five
columns that is absent from the input is skipped silently — the derived
column equals the raw column, and derivation still succeeds. -/
theorem C7_no_null_categoricals (t : RawTable) :
    (∀ r ∈ derive t,
        (t.hasWeather = true → r.Weather ≠ none)
      ∧ (t.hasTraffic = true → r.Traffic ≠ none)
      ∧ (t.hasVehicle = true → r.Vehicle ≠ none)
      ∧ (t.hasArea = true → r.Area ≠ none)
      ∧ (t.hasCategory = true → r.Category ≠ none))
  ∧ (t.hasWeather = true →
      (derive t).map (fun r => r.Weather)
        = t.rows.map (fun r => some (r.Weather.getD "Unknown")))
  ∧ (t.hasTraffic = true →
      (derive t).map (fun r => r.Traffic)
        = t.rows.map (fun r => some (r.Traffic.getD "Unknown")))
  ∧ (t.hasVehicle = true →
      (derive t).map (fun r => r.Vehicle)
        = t.rows.map (fun r => some (r.Vehicle.getD "Unknown")))
  ∧ (t.hasArea = true →
      (derive t).map (fun r => r.Area)
        = t.rows.map (fun r => some (r.Area.getD "Unknown")))
  ∧ (t.hasCategory = true →
      (derive t).map (fun r => r.Category)
        = t.rows.map (fun r => some (r.Category.getD "Unknown")))
  ∧ (t.hasWeather = false →
      (derive t).map (fun r => r.Weather) = t.rows.map (fun r => r.Weather))
  ∧ (t.hasTraffic = false →
      (derive t).map (fun r => r.Traffic) = t.rows.map (fun r => r.Traffic))
  ∧ (t.hasVehicle = false →
      (derive t).map (fun r => r.Vehicle) = t.rows.map (fun r => r.Vehicle))
  ∧ (t.hasArea = false →
      (derive t).map (fun r => r.Area) = t.rows.map (fun r => r.Area))
  ∧ (t.hasCategory = false →
      (derive t).map (fun r => r.Category) = t.rows.map (fun r => r.Category)) := by
  refine ⟨?_, ?_, ?_, ?_, ?_, ?_, ?_, ?_, ?_, ?_, ?_⟩
  · intro r hr
    rw [derive_eq] at hr
    obtain ⟨r0, _, rfl⟩ := List.mem_map.mp hr
    refine ⟨?_, ?_, ?_, ?_, ?_⟩
    · intro hflag
      show fillCat t.hasWeather r0.Weather ≠ none
      rw [hflag]
      simp [fillCat]
    · intro hflag
      show fillCat t.hasTraffic r0.Traffic ≠ none
      rw [hflag]
      simp [fillCat]
    · intro hflag
      show fillCat t.hasVehicle r0.Vehicle ≠ none
      rw [hflag]
      simp [fillCat]
    · intro hflag
      show fillCat t.hasArea r0.Area ≠ none
      rw [hflag]
      simp [fillCat]
    · intro hflag
      show fillCat t.hasCategory r0.Category ≠ none
      rw [hflag]
      simp [fillCat]
  all_goals
    intro hflag
    rw [derive_eq, List.map_map]
    rw [hflag]
    simp [fillCat]

/-- C7 witness: in the one-row table with Traffic absent and Weather null,
the derived Weather column is the raw one with its null replaced by the
sentinel `some "Unknown"` (in particular non-null), while the absent
Traffic column is passed through untouched. -/
theorem C7_witness :
    (rW ∈ derive tW ∧ rW.Weather ≠ none)
  ∧ (derive tW).map (fun r => r.Weather)
      = tW.rows.map (fun r => some (r.Weather.getD "Unknown"))
  ∧ (derive tW).map (fun r => r.Traffic) = tW.rows.map (fun r => r.Traffic) := by
  have hmem : rW ∈ derive tW := by
    rw [derive_tW]
    simp
  exact ⟨⟨hmem, ((C7_no_null_categoricals tW).1 rW hmem).1 (by rfl)⟩,
    (C7_no_null_categoricals tW).2.1 (by rfl),
    (C7_no_null_categoricals tW).2.2.2.2.2.2.2.1 (by rfl)⟩

/-- C8: during derivation, null Agent_Rating cells become the dataset-wide
mean of the non-null ratings and null Agent_Age cells become the
dataset-wide median of the non-null ages, each statistic computed on the
original (pre-imputation) column, each column independent of the other;
non-null cells are unchanged. -/
theorem C8_imputation_stats (t : RawTable) :
    (derive t).map (fun r => r.Agent_Rating)
      = t.rows.map (fun r =>
          fillNum (optMean (t.rows.map (fun x => x.Agent_Rating))) r.Agent_Rating)
  ∧ (derive t).map (fun r => r.Agent_Age)
      = t.rows.map (fun r =>
          fillNum (optMedian (t.rows.map (fun x => x.Agent_Age))) r.Agent_Age) := by
  constructor <;> (rw [derive_eq, List.map_map]; rfl)

/-- C8 witness: the statement instantiated at the three-row table with one
null rating (mean 3 of {2, 4}) and one null age (median 25 of {20, 30}). -/
theorem C8_witness :
    (derive tC8).map (fun r => r.Agent_Rating)
      = tC8.rows.map (fun r =>
          fillNum (optMean (tC8.rows.map (fun x => x.Agent_Rating))) r.Agent_Rating)
  ∧ (derive tC8).map (fun r => r.Agent_Age)
      = tC8.rows.map (fun r =>
          fillNum (optMedian (tC8.rows.map (fun x => x.Agent_Age))) r.Agent_Age) :=
  C8_imputation_stats tC8

/-- C9: when the filtered table is empty, the group-by aggregations behind
the charts return an empty set of groups — no error, no synthetic
zero-filled buckets; an empty filter result is a valid state. -/
theorem C9_empty_filter_empty_groups (t : RawTable) (s : Selection)
    (h : filtered_df s (derive t) = []) :
    fig2_data (filtered_df s (derive t)) = []
  ∧ late_df (filtered_df s (derive t)) = []
  ∧ (∀ key val, groupMean key val (filtered_df s (derive t)) = []) := by
  refine ⟨?_, ?_, ?_⟩
  · rw [h]
    exact groupMean_nil _ _
  · rw [h]
    simp [late_df, groupMean_nil]
  · intro key val
    rw [h]
    exact groupMean_nil key val

/-- C9 witness: filtering the one-row table by Weather = "Rainy" leaves no
rows, and the Vehicle group-by over the empty result is empty. -/
theorem C9_witness :
    filtered_df sel9 (derive t9) = []
  ∧ fig2_data (filtered_df sel9 (derive t9)) = [] := by
  have h : filtered_df sel9 (derive t9) = [] := by
    rw [derive_t9]
    simp [filtered_df, filterStep, sel9, exDRow]
  exact ⟨h, (C9_empty_filter_empty_groups t9 sel9 h).1⟩

/-- C10: filtering is pure row selection — the filtered view is an
order-preserving subsequence of the derived table (so every surviving row
is one of the original rows with all column values unchanged, and the
derived table itself is not modified). -/
theorem C10_filter_pure_selection (s : Selection) (rows : List Row) :
    List.Sublist (filtered_df s rows) rows
  ∧ ∀ r ∈ filtered_df s rows, r ∈ rows := by
  have h := filtered_df_sublist s rows
  exact ⟨h, fun r hr => h.subset hr⟩

/-- C10 witness: the statement instantiated at the Sunny filter over two
concrete rows. -/
theorem C10_witness :
    List.Sublist (filtered_df selSunny [rowA, rowB]) [rowA, rowB]
  ∧ ∀ r ∈ filtered_df selSunny [rowA, rowB], r ∈ [rowA, rowB] :=
  C10_filter_pure_selection selSunny [rowA, rowB]

end DeliveryDashboard
